import Mathlib

/-!
Shallow embedding of `src/Auth0_Bulk_User_Creation.ipynb`: synthetic user
generation with bcrypt-hashed passwords, connection-id lookup, bulk-import
job submission and status polling against the Auth0 Management API.

HTTP interaction is modelled by passing the remote service's responses in
explicitly: a single response for `start_import_job`, a trace (list) of
responses for the polling loop of `check_job_status`.
-/

namespace Auth0Bulk

/-! ## Decimal formatting: Python `f"{i:02d}"` for a non-negative integer

The decimal digit string of `i`, left-padded with `'0'` to a minimum width
of two characters.  The digit string is produced most-significant-first by
`natToDecAux`, a fuel-driven division loop (fuel `n + 1` always suffices);
`natToDecAux_eq_digits` below validates it against Mathlib's
`Nat.digits 10`. -/

/-- Most-significant-first decimal digit characters of `n`, computed by
repeated division by 10; `fuel` bounds the recursion depth. -/
def natToDecAux : Nat → Nat → List Char
  | 0, _ => []
  | fuel + 1, n =>
    if n < 10 then [Nat.digitChar n]
    else natToDecAux fuel (n / 10) ++ [Nat.digitChar (n % 10)]

/-- The decimal representation of a natural number as a string of digit
characters (no padding). -/
def natToDec (n : Nat) : String :=
  (natToDecAux (n + 1) n).asString

/-- Python's `f"{i:02d}"`: decimal digits of `i`, zero-padded on the left to
a minimum width of two, never truncated. -/
def format_02d (i : Nat) : String :=
  if i < 10 then "0" ++ natToDec i else natToDec i

/-! ## Password hasher (`hash_password`)

`bcrypt` is an external library (not part of this repository's source).
Modelled from the spec: a salted, fixed-cost (10 salt rounds) hash whose
output is the bcrypt modular-crypt string `$2b$10$<salt><digest>` — the
generated salt is embedded verbatim in the output, and the Blowfish digest
is abstracted as a deterministic stand-in function of (password, salt). -/

/-- Modelled from the spec: stand-in for the bcrypt Blowfish digest computed
by the external `bcrypt` library; only that it is a deterministic function
of the password and the salt matters for the properties proved here. -/
def bcryptDigest (password salt : String) : String :=
  toString (String.hash (password ++ "//" ++ salt))

/-- Modelled from the spec: `bcrypt.gensalt(rounds=10)` returns the
modular-crypt header for cost 10 followed by the 22 freshly drawn random
base64 characters.  The random draw is passed in as `randomChars`. -/
def bcrypt_gensalt (randomChars : String) : String :=
  "$2b$10$" ++ randomChars

/-- Modelled from the spec: `bcrypt.hashpw(password, salt)` returns the salt
string (header included) followed by the digest characters.  The external
library accepts any byte string as password, the empty one included. -/
def bcrypt_hashpw (password salt : String) : String :=
  salt ++ bcryptDigest password salt

/-- Python error kinds that the notebook's `hash_password` can raise. -/
inductive PyError where
  | attributeError
deriving DecidableEq, Repr

/-- `hash_password(password)` from the notebook: generates a salt with
`bcrypt.gensalt(rounds=10)` (the random draw is the explicit `randomChars`
argument), then calls `password.encode("utf-8")` — an `AttributeError` when
`password` is `None` — and hashes with `bcrypt.hashpw`. -/
def hash_password (randomChars : String) : Option String → Except PyError String
  | none => Except.error PyError.attributeError
  | some p => Except.ok (bcrypt_hashpw p (bcrypt_gensalt randomChars))

/-! ## User record generation (`create_user`, `create_users`) -/

/-- The user dictionary built by `create_user`. -/
structure UserRecord where
  email : String
  email_verified : Bool
  password_hash : String
  name : String
  nickname : String
  username : String
deriving DecidableEq, Repr

/-- `create_user(prefix, domain, password, i)` from the notebook:
`username = f"{prefix}_{i:02d}"`, password defaulting to the username when
`None`, and the record fields exactly as in the source.  `randomChars` is
the fresh random draw consumed by the `hash_password` call inside. -/
def create_user (randomChars : String) (pfx : String) (domain : String)
    (password : Option String) (i : Nat) : UserRecord :=
  let username := pfx ++ "_" ++ format_02d i
  let pw := password.getD username
  { email := username ++ "@" ++ domain
    email_verified := true
    password_hash := bcrypt_hashpw pw (bcrypt_gensalt randomChars)
    name := username ++ "@" ++ domain
    nickname := username
    username := username }

/-- `create_users(prefix, domain, N, password)` from the notebook:
`[create_user(prefix, domain, password, i) for i in range(1, N + 1)]`.
`salts i` is the fresh random draw consumed by the `i`-th record's
`hash_password` call. -/
def create_users (salts : Nat → String) (pfx : String) (domain : String)
    (N : Nat) (password : Option String) : List UserRecord :=
  (List.range' 1 N).map fun i => create_user (salts i) pfx domain password i

/-! ## Connection lookup (`get_connection_id`) -/

/-- An entry of the parsed `GET /api/v2/connections` response body. -/
structure Connection where
  id : String
  name : String
deriving DecidableEq, Repr

/-- Error kinds for the connection lookup.  The notebook's bare
`next(...)` raises `StopIteration` when the generator is exhausted; an
explicit "connection not found" error (`notFound`) is what the spec asks a
reimplementation to convert it to — the source never produces it. -/
inductive LookupError where
  | stopIteration
  | notFound
deriving DecidableEq, Repr

/-- `get_connection_id(domain, access_token, connection_name)` from the
notebook, applied to the parsed connections list of the remote response:
`next(conn["id"] for conn in connections if conn["name"] == connection_name)`
paired with `response.json()` — the first exactly-matching entry's id
together with the full parsed list; `StopIteration` when no entry matches. -/
def get_connection_id (connections : List Connection)
    (connection_name : String) : Except LookupError (String × List Connection) :=
  match connections.find? (fun conn => conn.name == connection_name) with
  | some conn => Except.ok (conn.id, connections)
  | none => Except.error LookupError.stopIteration

/-! ## Import job submission (`start_import_job`) -/

/-- The parsed body of a job-related response: `{id, status, summary}`. -/
structure ImportJob where
  id : String
  status : String
  summary : String
deriving DecidableEq, Repr

/-- A remote HTTP response: its status code, its parsed JSON body (a job
descriptor, for the endpoints modelled here) and its raw text. -/
structure HttpResponse where
  status_code : Nat
  json : ImportJob
  text : String
deriving DecidableEq, Repr

/-- What `start_import_job` hands back to its caller: the parsed job
descriptor on success, otherwise the raw response (status code and body
text) from the error path. -/
inductive SubmitResult where
  | job (j : ImportJob)
  | errorResponse (status_code : Nat) (text : String)
deriving DecidableEq, Repr

/-- `start_import_job(filename, connection_id, domain, access_token,
external_id)` from the notebook, applied to the remote response to the
multipart POST: on status 200 or 202 it returns `response.json()`, else it
prints the error and returns the response itself. -/
def start_import_job (response : HttpResponse) : SubmitResult :=
  if response.status_code = 200 ∨ response.status_code = 202 then
    SubmitResult.job response.json
  else
    SubmitResult.errorResponse response.status_code response.text

/-! ## Job status polling (`check_job_status`)

The loop issues one GET per iteration; the remote responses are passed in
as a trace, consumed in order.  The outcome records the returned value, the
number of status queries issued, and the list of sleep durations performed
between consecutive queries.  `none` models a trace that ends while the
loop would still be polling. -/

/-- What `check_job_status` hands back: the terminal parsed job status, or
the raw non-200 response (status code and body text) from the error path. -/
inductive PollResult where
  | ok (job_status : ImportJob)
  | errorResponse (status_code : Nat) (text : String)
deriving DecidableEq, Repr

/-- Observable outcome of a `check_job_status` run on a response trace. -/
structure PollOutcome where
  result : PollResult
  queries : Nat
  sleeps : List Nat
deriving DecidableEq, Repr

/-- `check_job_status(job, connection_id, domain, access_token, sleep=5)`
from the notebook: loop while pending — GET the job url; on a 200 response
set `pending = (status == "pending")` and, when still pending, perform
`time.sleep(5)` (the literal 5 from the source; the `sleep` parameter is
accepted but never read) and query again; on a non-200 response print the
error and return the response at once. -/
def check_job_status (sleep : Nat) : List HttpResponse → Option PollOutcome
  | [] => none
  | r :: rest =>
    if r.status_code = 200 then
      if r.json.status = "pending" then
        match check_job_status sleep rest with
        | some o => some ⟨o.result, o.queries + 1, 5 :: o.sleeps⟩
        | none => none
      else
        some ⟨PollResult.ok r.json, 1, []⟩
    else
      some ⟨PollResult.errorResponse r.status_code r.text, 1, []⟩

/-! ## Helper lemmas -/

/-- The fuelled decimal printer agrees with Mathlib's base-10 digit list on
positive inputs whenever the fuel exceeds the input. -/
theorem natToDecAux_eq_digits : ∀ n fuel, n < fuel → 0 < n →
    natToDecAux fuel n = ((Nat.digits 10 n).reverse.map Nat.digitChar) := by
  intro n
  induction n using Nat.strong_induction_on with
  | _ n ih =>
    intro fuel hfuel hn
    match fuel with
    | fuel + 1 =>
      by_cases h10 : n < 10
      · have hd : Nat.digits 10 n = [n % 10] := by
          rw [Nat.digits_def' (by norm_num : (1:ℕ) < 10) hn]
          rw [Nat.div_eq_of_lt h10]
          simp
        simp [natToDecAux, h10, hd, Nat.mod_eq_of_lt h10]
      · have hdiv_pos : 0 < n / 10 := Nat.div_pos (Nat.le_of_not_lt h10) (by norm_num)
        have hdiv_lt : n / 10 < n := Nat.div_lt_self hn (by norm_num)
        have hrec := ih (n / 10) hdiv_lt fuel (by omega) hdiv_pos
        rw [Nat.digits_def' (by norm_num : (1:ℕ) < 10) hn]
        simp [natToDecAux, h10, hrec]

/-- `Nat.digitChar` is injective on lists of base-10 digits. -/
theorem map_digitChar_inj {l1 l2 : List Nat} (h1 : ∀ d ∈ l1, d < 10)
    (h2 : ∀ d ∈ l2, d < 10) (h : l1.map Nat.digitChar = l2.map Nat.digitChar) :
    l1 = l2 := by
  induction l1 generalizing l2 with
  | nil => cases l2 <;> simp_all
  | cons a t ih =>
    cases l2 with
    | nil => simp_all
    | cons b t2 =>
      simp only [List.map_cons, List.cons.injEq] at h
      have ha : a < 10 := h1 a (by simp)
      have hb : b < 10 := h2 b (by simp)
      have hab : a = b := by
        have hd := (by decide : ∀ a < 10, ∀ b < 10, Nat.digitChar a = Nat.digitChar b → a = b)
        exact hd a ha b hb h.1
      have ht : t = t2 := ih (fun d hd => h1 d (by simp [hd])) (fun d hd => h2 d (by simp [hd])) h.2
      rw [hab, ht]

/-- The unpadded decimal printer is injective on positive inputs. -/
theorem natToDec_inj {n m : Nat} (hn : 0 < n) (hm : 0 < m)
    (h : natToDec n = natToDec m) : n = m := by
  unfold natToDec at h
  rw [natToDecAux_eq_digits n (n+1) (by omega) hn,
      natToDecAux_eq_digits m (m+1) (by omega) hm] at h
  have hl : ((Nat.digits 10 n).reverse.map Nat.digitChar)
      = ((Nat.digits 10 m).reverse.map Nat.digitChar) := by
    have hdata := congrArg String.data h
    simpa [List.asString] using hdata
  have hrev : (Nat.digits 10 n).reverse = (Nat.digits 10 m).reverse := by
    apply map_digitChar_inj _ _ hl
    · intro d hd
      exact Nat.digits_lt_base (by norm_num) (List.mem_reverse.mp hd)
    · intro d hd
      exact Nat.digits_lt_base (by norm_num) (List.mem_reverse.mp hd)
  have hdig : Nat.digits 10 n = Nat.digits 10 m := by
    have hrr := congrArg List.reverse hrev
    simpa using hrr
  exact Nat.digits_inj_iff.mp hdig

/-- A zero-padded single digit never coincides with the decimal string of a
number that is at least ten: the latter's leading digit is nonzero. -/
theorem zero_pad_ne_natToDec {j : Nat} (hj : 10 ≤ j) (i : Nat) :
    "0" ++ natToDec i ≠ natToDec j := by
  intro h
  have hj0 : 0 < j := by omega
  have hdata := congrArg String.data h
  rw [String.data_append] at hdata
  unfold natToDec at hdata
  rw [natToDecAux_eq_digits j (j+1) (by omega) hj0] at hdata
  have hne : Nat.digits 10 j ≠ [] := Nat.digits_ne_nil_iff_ne_zero.mpr (by omega)
  have hrevne : (Nat.digits 10 j).reverse ≠ [] := by simp [hne]
  obtain ⟨c, cs, hc⟩ := List.exists_cons_of_ne_nil hrevne
  have hglast : (Nat.digits 10 j).getLast hne = c := by
    have hrl : Nat.digits 10 j = cs.reverse ++ [c] := by
      have hrr := congrArg List.reverse hc
      simpa using hrr
    simp [hrl]
  have hc10 : c < 10 := by
    apply Nat.digits_lt_base (by norm_num)
    have hmem : c ∈ (Nat.digits 10 j).reverse := by rw [hc]; simp
    exact List.mem_reverse.mp hmem
  have hcne : c ≠ 0 := by
    rw [← hglast]
    exact Nat.getLast_digit_ne_zero 10 (by omega)
  rw [hc] at hdata
  simp only [List.map_cons, List.asString] at hdata
  have hhead : '0' = Nat.digitChar c := by
    simp only [List.cons_append, List.nil_append, List.cons.injEq] at hdata
    exact hdata.1
  have hne0 := (by decide : ∀ c < 10, c ≠ 0 → Nat.digitChar c ≠ '0') c hc10 hcne
  exact hne0 hhead.symm

/-- Python's `{i:02d}` formatting is injective: padding to a minimum width
never conflates two distinct non-negative integers. -/
theorem format_02d_inj {i j : Nat} (h : format_02d i = format_02d j) : i = j := by
  unfold format_02d at h
  by_cases hi : i < 10 <;> by_cases hj : j < 10 <;> simp [hi, hj] at h
  · have hsmall : natToDec i = natToDec j := by
      have hdata := congrArg String.data h
      rw [String.data_append, String.data_append] at hdata
      have hcancel := List.append_cancel_left hdata
      exact String.ext hcancel
    exact (by decide : ∀ a < 10, ∀ b < 10, natToDec a = natToDec b → a = b) i hi j hj hsmall
  · exact absurd h (zero_pad_ne_natToDec (by omega) i)
  · exact absurd h.symm (zero_pad_ne_natToDec (by omega) j)
  · exact natToDec_inj (by omega) (by omega) h

/-- Hashing with distinct equal-length salt draws yields distinct outputs:
the bcrypt output embeds its salt verbatim after the 7-character header. -/
theorem hashpw_salt_inj {r1 r2 : String} (w1 w2 : String)
    (hl : r1.length = r2.length) (hne : r1 ≠ r2) :
    bcrypt_hashpw w1 (bcrypt_gensalt r1) ≠ bcrypt_hashpw w2 (bcrypt_gensalt r2) := by
  intro h
  unfold bcrypt_hashpw bcrypt_gensalt at h
  have hdata := congrArg String.data h
  simp only [String.data_append] at hdata
  rw [List.append_assoc, List.append_assoc] at hdata
  have h2 := List.append_cancel_left hdata
  have h3 := List.append_inj h2 hl
  exact hne (String.ext h3.1)

/-- On a present (string) input, the notebook's `hash_password` always
succeeds with the bcrypt output for the drawn salt. -/
theorem hash_password_some (randomChars p : String) :
    hash_password randomChars (some p)
      = Except.ok (bcrypt_hashpw p (bcrypt_gensalt randomChars)) := rfl

/-! ## Claim theorems -/

/-- C1: For every prefix `P`, domain `D` and count `N ≥ 1`, `create_users`
returns exactly `N` records whose `k`-th (0-based) entry has username
`P ++ "_" ++ format_02d (k + 1)` — that is `P_01 … P_0N` with indices
zero-padded to a minimum width of two digits — email `{username}@{D}`, and
`email_verified = true`. -/
theorem create_users_generates_n_records (salts : Nat → String)
    (P D : String) (password : Option String) (N : Nat) (hN : 1 ≤ N) :
    (create_users salts P D N password).length = N ∧
    ∀ k, k < N →
      ∃ u, (create_users salts P D N password)[k]? = some u ∧
        u.username = P ++ "_" ++ format_02d (k + 1) ∧
        u.email = u.username ++ "@" ++ D ∧
        u.email_verified = true := by
  constructor
  · simp [create_users]
  · intro k hk
    refine ⟨create_user (salts (k + 1)) P D password (k + 1), ?_, rfl, rfl, rfl⟩
    simp [create_users, List.getElem?_map, List.getElem?_range', hk, Nat.add_comm]

/-- C1 witness: one record with prefix `imfake` and domain `test.edu`. -/
theorem create_users_generates_n_records_witness :
    (create_users (fun _ => "SALTSALTSALTSALTSALTSA") "imfake" "test.edu" 1 none).length = 1 ∧
    ∃ u, (create_users (fun _ => "SALTSALTSALTSALTSALTSA") "imfake" "test.edu" 1 none)[0]? = some u ∧
      u.username = "imfake" ++ "_" ++ format_02d (0 + 1) ∧
      u.email = u.username ++ "@" ++ "test.edu" ∧
      u.email_verified = true := by
  have h := create_users_generates_n_records (fun _ => "SALTSALTSALTSALTSALTSA")
    "imfake" "test.edu" none 1 (by decide)
  exact ⟨h.1, h.2 0 (by decide)⟩

/-- C8: With no explicit password (`password = None`), the plaintext hashed
into the record's `password_hash` is exactly the generated username:
hashing the record's username with the same salt draw reproduces the
stored hash verbatim. -/
theorem create_user_default_password_is_username (randomChars P D : String) (i : Nat) :
    hash_password randomChars (some ((create_user randomChars P D none i).username))
      = Except.ok ((create_user randomChars P D none i).password_hash) := rfl

/-- C9: the `{i:02d}` format pads to a minimum width of two digits but
never drops digits — for `i ≥ 100` the username is the prefix, an
underscore, and the full decimal representation of `i` — so usernames with
the same prefix are pairwise distinct across distinct indices. -/
theorem create_user_username_never_truncated :
    (∀ (r P D : String) (pw : Option String) (i : Nat), 100 ≤ i →
       (create_user r P D pw i).username = P ++ "_" ++ natToDec i) ∧
    (∀ (r1 r2 P D1 D2 : String) (pw1 pw2 : Option String) (i j : Nat), i ≠ j →
       (create_user r1 P D1 pw1 i).username ≠ (create_user r2 P D2 pw2 j).username) := by
  constructor
  · intro r P D pw i hi
    show P ++ "_" ++ format_02d i = P ++ "_" ++ natToDec i
    unfold format_02d
    rw [if_neg (by omega)]
  · intro r1 r2 P D1 D2 pw1 pw2 i j hij h
    apply hij
    apply format_02d_inj
    have hdata := congrArg String.data h
    simp only [String.data_append, List.append_assoc] at hdata
    have h1 := List.append_cancel_left hdata
    exact String.ext h1

/-- C9 witness: `user_100` is not truncated and differs from `user_101`. -/
theorem create_user_username_never_truncated_witness :
    (create_user "SALTSALTSALTSALTSALTSA" "user" "example.com" none 100).username
      = "user" ++ "_" ++ natToDec 100 ∧
    (create_user "SALTSALTSALTSALTSALTSA" "user" "example.com" none 100).username
      ≠ (create_user "SALTSALTSALTSALTSALTSA" "user" "example.com" none 101).username :=
  ⟨create_user_username_never_truncated.1 "SALTSALTSALTSALTSALTSA" "user" "example.com"
      none 100 (by decide),
   create_user_username_never_truncated.2 "SALTSALTSALTSALTSALTSA" "SALTSALTSALTSALTSALTSA"
      "user" "example.com" "example.com" none none 100 101 (by decide)⟩

/-- C6: Two independent `hash_password` calls on the same non-empty
password produce different output strings, the fresh random draws being
modelled as the two salt arguments: whenever the two 22-character salt
draws differ, so do the outputs, since the bcrypt output embeds its salt. -/
theorem hash_password_two_calls_differ (w r1 r2 : String) (hw : w ≠ "")
    (h1 : r1.length = 22) (h2 : r2.length = 22) (hne : r1 ≠ r2) :
    hash_password r1 (some w) ≠ hash_password r2 (some w) := by
  intro h
  rw [hash_password_some, hash_password_some] at h
  exact hashpw_salt_inj w w (h1.trans h2.symm) hne (Except.ok.inj h)

/-- C6 witness: two concrete distinct salt draws on the password
`hunter2`. -/
theorem hash_password_two_calls_differ_witness :
    hash_password "AAAAAAAAAAAAAAAAAAAAAA" (some "hunter2")
      ≠ hash_password "BBBBBBBBBBBBBBBBBBBBBB" (some "hunter2") :=
  hash_password_two_calls_differ "hunter2" "AAAAAAAAAAAAAAAAAAAAAA"
    "BBBBBBBBBBBBBBBBBBBBBB" (by decide) (by decide) (by decide) (by decide)

/-- C7 counterexample: on the empty-string input `hash_password` does not
fail — the external bcrypt library accepts the empty byte string, so the
call returns an ordinary bcrypt hash value rather than an error. -/
theorem hash_password_empty_returns_hash :
    hash_password "AAAAAAAAAAAAAAAAAAAAAA" (some "")
      = Except.ok (bcrypt_hashpw "" (bcrypt_gensalt "AAAAAAAAAAAAAAAAAAAAAA")) ∧
    hash_password "AAAAAAAAAAAAAAAAAAAAAA" (some "")
      ≠ Except.error PyError.attributeError := by
  refine ⟨rfl, fun h => ?_⟩
  rw [hash_password_some] at h
  cases h

/-- C7 (amended): `hash_password` fails with a propagated `AttributeError`
when its input is null/absent (`None.encode` has no attribute `encode`);
on any present string input — the empty string included — it returns a
bcrypt hash string rather than failing. -/
theorem hash_password_null_fails (randomChars : String) :
    hash_password randomChars none = Except.error PyError.attributeError ∧
    ∀ p : String, hash_password randomChars (some p)
      = Except.ok (bcrypt_hashpw p (bcrypt_gensalt randomChars)) :=
  ⟨rfl, fun _ => rfl⟩

/-- C5 counterexample: with zero matching entries (here: an empty
connection listing) the lookup fails with the `StopIteration` of the
exhausted bare `next(...)` generator — not with an explicit NotFound
error. -/
theorem get_connection_id_no_match_not_notFound :
    get_connection_id [] "Username-Password-Authentication"
      = Except.error LookupError.stopIteration ∧
    get_connection_id [] "Username-Password-Authentication"
      ≠ Except.error LookupError.notFound := by
  refine ⟨rfl, fun h => ?_⟩
  rw [(rfl : get_connection_id [] "Username-Password-Authentication"
      = Except.error LookupError.stopIteration)] at h
  injection h with h2
  cases h2

/-- C5 (amended): `get_connection_id` returns the first exactly-matching
entry's id (paired with the full list) when at least one entry matches;
when zero entries match it fails, with the unhandled iteration-exhaustion
error (`StopIteration`) of the bare `next(...)` rather than an explicit
NotFound error. -/
theorem get_connection_id_first_match_or_stop (conns : List Connection) (cname : String) :
    ((∃ c ∈ conns, c.name = cname) →
       ∃ j, ∃ hj : j < conns.length,
         (conns.get ⟨j, hj⟩).name = cname ∧
         (∀ k (hk : k < j), (conns.get ⟨k, Nat.lt_trans hk hj⟩).name ≠ cname) ∧
         get_connection_id conns cname = Except.ok ((conns.get ⟨j, hj⟩).id, conns)) ∧
    ((∀ c ∈ conns, c.name ≠ cname) →
       get_connection_id conns cname = Except.error LookupError.stopIteration) := by
  constructor
  · rintro ⟨c, hmem, hname⟩
    have hsome : (conns.find? (fun conn => conn.name == cname)).isSome := by
      rw [List.find?_isSome]
      exact ⟨c, hmem, by simpa using hname⟩
    obtain ⟨b, hb⟩ := Option.isSome_iff_exists.mp hsome
    obtain ⟨hpb, i, hi, hib, hbefore⟩ := List.find?_eq_some_iff_getElem.mp hb
    refine ⟨i, hi, ?_, ?_, ?_⟩
    · have : conns.get ⟨i, hi⟩ = b := hib
      rw [this]
      simpa using hpb
    · intro k hk
      have := hbefore k hk
      simpa using this
    · unfold get_connection_id
      rw [hb]
      have : conns.get ⟨i, hi⟩ = b := hib
      rw [this]
  · intro hnone
    unfold get_connection_id
    have : conns.find? (fun conn => conn.name == cname) = none := by
      rw [List.find?_eq_none]
      intro x hx
      simpa using hnone x hx
    rw [this]

/-- C5 witness: a two-entry listing whose second entry matches, and a
one-entry listing with no match. -/
theorem get_connection_id_first_match_or_stop_witness :
    (∃ j, ∃ hj : j < ([(⟨"con_A", "google-oauth2"⟩ : Connection),
        ⟨"con_B", "Username-Password-Authentication"⟩]).length,
      (([(⟨"con_A", "google-oauth2"⟩ : Connection),
          ⟨"con_B", "Username-Password-Authentication"⟩]).get ⟨j, hj⟩).name
        = "Username-Password-Authentication" ∧
      (∀ k (hk : k < j), (([(⟨"con_A", "google-oauth2"⟩ : Connection),
          ⟨"con_B", "Username-Password-Authentication"⟩]).get
            ⟨k, Nat.lt_trans hk hj⟩).name ≠ "Username-Password-Authentication") ∧
      get_connection_id [⟨"con_A", "google-oauth2"⟩,
          ⟨"con_B", "Username-Password-Authentication"⟩]
          "Username-Password-Authentication"
        = Except.ok ((([(⟨"con_A", "google-oauth2"⟩ : Connection),
            ⟨"con_B", "Username-Password-Authentication"⟩]).get ⟨j, hj⟩).id,
          [⟨"con_A", "google-oauth2"⟩,
           ⟨"con_B", "Username-Password-Authentication"⟩])) ∧
    get_connection_id [⟨"con_A", "google-oauth2"⟩]
        "Username-Password-Authentication"
      = Except.error LookupError.stopIteration :=
  ⟨(get_connection_id_first_match_or_stop
      [⟨"con_A", "google-oauth2"⟩, ⟨"con_B", "Username-Password-Authentication"⟩]
      "Username-Password-Authentication").1
      ⟨⟨"con_B", "Username-Password-Authentication"⟩, by decide, rfl⟩,
   (get_connection_id_first_match_or_stop [⟨"con_A", "google-oauth2"⟩]
      "Username-Password-Authentication").2 (by decide)⟩

/-- C10: A successful `get_connection_id` call returns a pair, not a bare
identifier: the first component is a matching connection's id and the
second is the full parsed connection list. -/
theorem get_connection_id_returns_pair (conns : List Connection) (cname : String)
    (r : String × List Connection)
    (h : get_connection_id conns cname = Except.ok r) :
    r.2 = conns ∧ ∃ c ∈ conns, c.name = cname ∧ r.1 = c.id := by
  unfold get_connection_id at h
  cases hf : conns.find? (fun conn => conn.name == cname) with
  | none =>
    rw [hf] at h
    cases h
  | some c =>
    rw [hf] at h
    have hr := Except.ok.inj h
    refine ⟨?_, c, List.mem_of_find?_eq_some hf, ?_, ?_⟩
    · rw [← hr]
    · have := List.find?_some hf
      simpa using this
    · rw [← hr]

/-- C10 witness: the concrete pair returned on a two-entry listing. -/
theorem get_connection_id_returns_pair_witness :
    (("con_B", [(⟨"con_A", "google-oauth2"⟩ : Connection),
        ⟨"con_B", "Username-Password-Authentication"⟩]) :
          String × List Connection).2
      = [⟨"con_A", "google-oauth2"⟩, ⟨"con_B", "Username-Password-Authentication"⟩] ∧
    ∃ c ∈ [(⟨"con_A", "google-oauth2"⟩ : Connection),
        ⟨"con_B", "Username-Password-Authentication"⟩],
      c.name = "Username-Password-Authentication" ∧
      (("con_B", [(⟨"con_A", "google-oauth2"⟩ : Connection),
          ⟨"con_B", "Username-Password-Authentication"⟩]) :
            String × List Connection).1 = c.id :=
  get_connection_id_returns_pair
    [⟨"con_A", "google-oauth2"⟩, ⟨"con_B", "Username-Password-Authentication"⟩]
    "Username-Password-Authentication"
    ("con_B", [⟨"con_A", "google-oauth2"⟩, ⟨"con_B", "Username-Password-Authentication"⟩])
    rfl

/-- C4: `start_import_job` returns the parsed job descriptor exactly when
the remote responds 200 or 202; on any other status it hands the caller
the error value carrying the response's status code and body text, and
never a job descriptor. -/
theorem start_import_job_success_or_error (r : HttpResponse) :
    ((r.status_code = 200 ∨ r.status_code = 202) →
       start_import_job r = SubmitResult.job r.json) ∧
    (r.status_code ≠ 200 → r.status_code ≠ 202 →
       start_import_job r = SubmitResult.errorResponse r.status_code r.text ∧
       ∀ j, start_import_job r ≠ SubmitResult.job j) := by
  constructor
  · intro h
    unfold start_import_job
    rw [if_pos h]
  · intro h1 h2
    have hcond : ¬(r.status_code = 200 ∨ r.status_code = 202) := by tauto
    constructor
    · unfold start_import_job
      rw [if_neg hcond]
    · intro j hj
      unfold start_import_job at hj
      rw [if_neg hcond] at hj
      cases hj

/-- C4 witness: a 202 acceptance and a 403 rejection. -/
theorem start_import_job_success_or_error_witness :
    start_import_job ⟨202, ⟨"job_1", "pending", ""⟩, "body"⟩
      = SubmitResult.job ⟨"job_1", "pending", ""⟩ ∧
    start_import_job ⟨403, ⟨"", "", ""⟩, "forbidden"⟩
      = SubmitResult.errorResponse 403 "forbidden" :=
  ⟨(start_import_job_success_or_error ⟨202, ⟨"job_1", "pending", ""⟩, "body"⟩).1
      (Or.inr rfl),
   ((start_import_job_success_or_error ⟨403, ⟨"", "", ""⟩, "forbidden"⟩).2
      (by decide) (by decide)).1⟩

/-- C2: the poll loop (i) returns after exactly one status query, with the
parsed job status, when the first response is 200 with a non-pending
status; (ii) on a 200 pending response it queries again, its final result
being that of the remaining trace; (iii) any status it returns as `ok` is
non-pending; (iv) on the first non-200 response it stops at once —
exactly one query from that point, no sleeps — and surfaces the error
value carrying that response's status code and body text. -/
theorem check_job_status_polls_until_terminal (sleep : Nat) :
    (∀ r rest, r.status_code = 200 → r.json.status ≠ "pending" →
       check_job_status sleep (r :: rest) = some ⟨PollResult.ok r.json, 1, []⟩) ∧
    (∀ r rest, r.status_code = 200 → r.json.status = "pending" →
       check_job_status sleep (r :: rest)
         = (check_job_status sleep rest).map
             (fun o => ⟨o.result, o.queries + 1, 5 :: o.sleeps⟩)) ∧
    (∀ trace o js, check_job_status sleep trace = some o →
       o.result = PollResult.ok js → js.status ≠ "pending") ∧
    (∀ r rest, r.status_code ≠ 200 →
       check_job_status sleep (r :: rest)
         = some ⟨PollResult.errorResponse r.status_code r.text, 1, []⟩) := by
  refine ⟨?_, ?_, ?_, ?_⟩
  · intro r rest h200 hnp
    simp [check_job_status, h200, hnp]
  · intro r rest h200 hp
    simp only [check_job_status, h200, hp, if_true, if_pos]
    cases check_job_status sleep rest <;> simp
  · intro trace
    induction trace with
    | nil =>
      intro o js h
      cases h
    | cons r rest ih =>
      intro o js h hres
      by_cases h200 : r.status_code = 200
      · by_cases hp : r.json.status = "pending"
        · simp only [check_job_status, h200, hp, if_true, if_pos] at h
          cases hrec : check_job_status sleep rest with
          | none => rw [hrec] at h; cases h
          | some o2 =>
            rw [hrec] at h
            simp only [Option.some.injEq] at h
            apply ih o2 js hrec
            rw [← hres, ← h]
        · simp [check_job_status, h200, hp] at h
          rw [← h] at hres
          simp only [PollResult.ok.injEq] at hres
          rw [← hres]
          exact hp
      · simp [check_job_status, h200] at h
        rw [← h] at hres
        cases hres
  · intro r rest h200
    simp [check_job_status, h200]

/-- C2 witness: an immediate completion, a pending-then-completed trace,
a proof that the returned "completed" status is not pending, and an
immediate 500 abort. -/
theorem check_job_status_polls_until_terminal_witness :
    check_job_status 5 [⟨200, ⟨"job_1", "completed", "s"⟩, "t"⟩]
      = some ⟨PollResult.ok ⟨"job_1", "completed", "s"⟩, 1, []⟩ ∧
    check_job_status 5 [⟨200, ⟨"job_1", "pending", ""⟩, "t"⟩,
        ⟨200, ⟨"job_1", "completed", "s"⟩, "t"⟩]
      = (check_job_status 5 [⟨200, ⟨"job_1", "completed", "s"⟩, "t"⟩]).map
          (fun o => ⟨o.result, o.queries + 1, 5 :: o.sleeps⟩) ∧
    (⟨"job_1", "completed", "s"⟩ : ImportJob).status ≠ "pending" ∧
    check_job_status 5 [⟨500, ⟨"", "", ""⟩, "server error"⟩]
      = some ⟨PollResult.errorResponse 500 "server error", 1, []⟩ :=
  ⟨(check_job_status_polls_until_terminal 5).1
      ⟨200, ⟨"job_1", "completed", "s"⟩, "t"⟩ [] rfl (by decide),
   (check_job_status_polls_until_terminal 5).2.1
      ⟨200, ⟨"job_1", "pending", ""⟩, "t"⟩
      [⟨200, ⟨"job_1", "completed", "s"⟩, "t"⟩] rfl rfl,
   (check_job_status_polls_until_terminal 5).2.2.1
      [⟨200, ⟨"job_1", "completed", "s"⟩, "t"⟩]
      ⟨PollResult.ok ⟨"job_1", "completed", "s"⟩, 1, []⟩
      ⟨"job_1", "completed", "s"⟩ rfl rfl,
   (check_job_status_polls_until_terminal 5).2.2.2
      ⟨500, ⟨"", "", ""⟩, "server error"⟩ [] (by decide)⟩

/-- C3, the code evaluated at the failing input: with `sleep = 7` and a
trace of one pending 200 response followed by a completed 200 response,
the wait performed between the two status queries is the hard-coded
`time.sleep(5)` — 5 time units, not the 7 that was passed. -/
theorem check_job_status_sleep_param_ignored :
    check_job_status 7 [⟨200, ⟨"job_1", "pending", ""⟩, "t1"⟩,
        ⟨200, ⟨"job_1", "completed", "done"⟩, "t2"⟩]
      = some ⟨PollResult.ok ⟨"job_1", "completed", "done"⟩, 2, [5]⟩ ∧
    (5 : Nat) ≠ 7 :=
  ⟨rfl, by decide⟩

end Auth0Bulk
